import Mathlib

/-!
Shallow embedding of src/cn-plugin-elevenlabs.py (COVAS-Labs/plugin-elevenlabs).

The plugin exposes ElevenLabs speech-to-text and text-to-speech through the
host interface: `create_model` dispatches on a provider id and constructs an
adapter from a flat settings mapping; the adapters lazily build a vendor
client, then forward `transcribe` / `synthesize` calls to the vendor SDK.

Python dynamic values that can appear in the settings mapping are embedded as
`SettingValue`; vendor interactions are embedded by passing the mocked vendor
behaviour as a function argument (the request records exactly what the code
passes to the SDK, the response is what the vendor would deliver).  Logging
is embedded as an explicit list of log lines produced by a call.
-/

/-- Scalar values of the host settings mapping (Python is dynamically typed:
a value may be a string, a number, a boolean, or None). Numbers are embedded
as rationals: the plugin only stores and forwards them, no float rounding is
observable. -/
inductive SettingValue where
  | str (s : String)
  | num (q : Rat)
  | bool (b : Bool)
  | pyNone
deriving DecidableEq, Repr

/-- Python truthiness for the embedded scalar values (`if not api_key: ...`,
`x or None`). -/
def SettingValue.truthy : SettingValue → Bool
  | .str s => s ≠ ""
  | .num q => q ≠ 0
  | .bool b => b
  | .pyNone => false

/-- The host settings mapping: string keys to scalar values (a Python dict;
first binding of a key wins, mirroring a dict's single binding per key). -/
abbrev Settings := List (String × SettingValue)

/-- Embedding of `settings.get(key)`: the value bound to the key, if any. -/
def getSetting (s : Settings) (k : String) : Option SettingValue :=
  (s.find? (fun p => p.1 = k)).map (fun p => p.2)

/-- Embedding of `settings.get(key, default)`. -/
def getSettingD (s : Settings) (k : String) (d : SettingValue) : SettingValue :=
  (getSetting s k).getD d

/-- Digit string to natural number; fails on a non-digit. -/
def digitsVal? (cs : List Char) : Option Nat :=
  cs.foldlM (fun acc c => if c.isDigit then some (acc * 10 + (c.toNat - 48)) else none) 0

/-- Unsigned decimal literal (`123`, `1.5`, `1.`, `.5`) as a rational. -/
def parseUnsigned? (cs : List Char) : Option Rat :=
  let (ip, rest) := cs.span Char.isDigit
  match rest with
  | [] =>
    if ip.isEmpty then none else (digitsVal? ip).map (fun n => (n : Rat))
  | '.' :: fp =>
    if fp.all Char.isDigit && !(ip.isEmpty && fp.isEmpty) then
      match digitsVal? ip, digitsVal? fp with
      | some a, some b => some ((a : Rat) + (b : Rat) / ((10 : Rat) ^ fp.length))
      | _, _ => none
    else none
  | _ => none

/-- Model of Python's built-in `float(str)` on plain decimal literals with an
optional sign and surrounding whitespace (exponent / inf / nan forms are not
needed by this plugin's settings and are not modelled). -/
def parsePyFloat? (s : String) : Option Rat :=
  match s.trim.toList with
  | '+' :: rest => parseUnsigned? rest
  | '-' :: rest => (parseUnsigned? rest).map (fun q => -q)
  | cs => parseUnsigned? cs

/-- Model of Python's built-in `float(x)` on an embedded scalar: numbers pass
through, booleans become 0/1, decimal strings are parsed, anything else
raises (embedded as `Except.error` with the CPython message shape). -/
def pyFloat : SettingValue → Except String Rat
  | .num q => .ok q
  | .bool b => .ok (if b then 1 else 0)
  | .str s =>
    match parsePyFloat? s with
    | some q => .ok q
    | none => .error ("could not convert string to float: " ++ s)
  | .pyNone => .error "float() argument must be a string or a real number, not NoneType"

/-- Model of Python's `str.strip()` with no argument: drop leading and
trailing whitespace characters (the ASCII whitespace forms this plugin can
meet; Python would additionally strip rarer Unicode space characters). -/
def pyStrip (s : String) : String :=
  ⟨((s.toList.dropWhile Char.isWhitespace).reverse.dropWhile Char.isWhitespace).reverse⟩

/-- The vendor client handle, `ElevenLabs(api_key=self.api_key)`: all the
embedding needs to observe is which credential it was built from. -/
structure ElevenLabsClient where
  api_key : SettingValue
deriving DecidableEq, Repr

/-- `ElevenLabsSTTModel` instance state: credential, model id, optional
language hint, and the lazily-created client handle (`self._client`,
initially `None`). -/
structure ElevenLabsSTTModel where
  api_key : SettingValue
  model_id : SettingValue
  language_code : Option SettingValue
  client : Option ElevenLabsClient := none
deriving DecidableEq, Repr

/-- `ElevenLabsSTTModel._get_client`: lazily initialize the client from the
stored credential on first use, return the cached handle afterwards.
Returns the handle together with the updated instance state. -/
def ElevenLabsSTTModel.getClient (m : ElevenLabsSTTModel) :
    ElevenLabsClient × ElevenLabsSTTModel :=
  match m.client with
  | some c => (c, m)
  | none =>
    let c : ElevenLabsClient := ⟨m.api_key⟩
    (c, { m with client := some c })

/-- The transcription request the code hands to
`client.speech_to_text.convert(**kwargs)`: the in-memory WAV file (only its
name is observable here), always the model id, and the language code exactly
when it is truthy (`if self.language_code: kwargs["language_code"] = ...`). -/
structure TranscribeRequest where
  file_name : String
  model_id : SettingValue
  language_code : Option SettingValue
deriving DecidableEq, Repr

/-- The kwargs `transcribe` builds for the vendor call, from lines 58-69 of
the source. -/
def ElevenLabsSTTModel.transcribeRequest (m : ElevenLabsSTTModel) : TranscribeRequest :=
  { file_name := "audio.wav"
    model_id := m.model_id
    language_code :=
      match m.language_code with
      | some v => if v.truthy then some v else none
      | none => none }

/-- The vendor transcription result object: its `.text` field (a string or
None). -/
structure STTResult where
  text : Option String
deriving DecidableEq, Repr

/-- `ElevenLabsSTTModel.transcribe`: get the (lazily created) client, call
the vendor with the built kwargs, and return `result.text.strip() if
result.text else ""`; a vendor exception is logged
(`ElevenLabs STT transcription failed: ...`) and re-raised.  The mocked
vendor behaviour is the `vendor` argument; the call returns the result (or
re-raised error), the log lines emitted, and the updated instance state. -/
def ElevenLabsSTTModel.transcribe (m : ElevenLabsSTTModel)
    (vendor : TranscribeRequest → Except String STTResult) :
    Except String String × List String × ElevenLabsSTTModel :=
  let (_, m2) := m.getClient
  match vendor m2.transcribeRequest with
  | .ok result =>
    (.ok (match result.text with
          | some t => if t ≠ "" then pyStrip t else ""
          | none => ""),
     [], m2)
  | .error e =>
    (.error e, ["ElevenLabs STT transcription failed: " ++ e], m2)

/-- `ElevenLabsTTSModel` instance state: credential, model id, the four
voice-shaping parameters, and the lazily-created client handle. -/
structure ElevenLabsTTSModel where
  api_key : SettingValue
  model_id : SettingValue
  stability : Rat
  similarity_boost : Rat
  style : Rat
  use_speaker_boost : Bool := true
  client : Option ElevenLabsClient := none
deriving DecidableEq, Repr

/-- `ElevenLabsTTSModel._get_client`: identical lazy initialization to the
STT model's. -/
def ElevenLabsTTSModel.getClient (m : ElevenLabsTTSModel) :
    ElevenLabsClient × ElevenLabsTTSModel :=
  match m.client with
  | some c => (c, m)
  | none =>
    let c : ElevenLabsClient := ⟨m.api_key⟩
    (c, { m with client := some c })

/-- The nested `voice_settings` object sent on a synthesis call. -/
structure VoiceSettings where
  stability : Rat
  similarity_boost : Rat
  style : Rat
  use_speaker_boost : Bool
deriving DecidableEq, Repr

/-- The request the code hands to `client.text_to_speech.stream(...)`. -/
structure SynthRequest where
  text : String
  voice_id : String
  model_id : SettingValue
  output_format : String
  voice_settings : VoiceSettings
deriving DecidableEq, Repr

/-- The streaming-synthesis request built in `synthesize` (lines 126-137). -/
def ElevenLabsTTSModel.synthRequest (m : ElevenLabsTTSModel)
    (text voice : String) : SynthRequest :=
  { text := text
    voice_id := voice
    model_id := m.model_id
    output_format := "pcm_24000"
    voice_settings :=
      { stability := m.stability
        similarity_boost := m.similarity_boost
        style := m.style
        use_speaker_boost := m.use_speaker_boost } }

/-- An item delivered by the vendor's audio stream: Python is dynamically
typed, so besides byte chunks the stream could in principle deliver strings
or None (the code guards with `isinstance(chunk, bytes)`). -/
inductive StreamItem where
  | bytes (b : List UInt8)
  | str (s : String)
  | pyNone
deriving DecidableEq, Repr

/-- The generator loop of `synthesize` (lines 140-142):
`for chunk in audio_stream: if isinstance(chunk, bytes) and chunk: yield chunk`. -/
def yieldLoop : List StreamItem → List (List UInt8)
  | [] => []
  | .bytes b :: rest => if b ≠ [] then b :: yieldLoop rest else yieldLoop rest
  | .str _ :: rest => yieldLoop rest
  | .pyNone :: rest => yieldLoop rest

/-- `ElevenLabsTTSModel.synthesize`: get the (lazily created) client, open
the vendor stream with the built request, and yield the non-empty byte
chunks as they arrive; a vendor exception is logged
(`ElevenLabs TTS synthesis failed: ...`) and re-raised after whatever chunks
were already yielded.  The mocked vendor is the `vendor` argument, giving
the chunks delivered before the stream ends and `none`, or before it raises
the given error.  Returns (chunks yielded, re-raised error if any, log
lines) and the updated instance state. -/
def ElevenLabsTTSModel.synthesize (m : ElevenLabsTTSModel) (text voice : String)
    (vendor : SynthRequest → List StreamItem × Option String) :
    (List (List UInt8) × Option String × List String) × ElevenLabsTTSModel :=
  let (_, m2) := m.getClient
  let (stream, streamErr) := vendor (m2.synthRequest text voice)
  match streamErr with
  | none => ((yieldLoop stream, none, []), m2)
  | some e =>
    ((yieldLoop stream, some e, ["ElevenLabs TTS synthesis failed: " ++ e]), m2)

/-- The two adapter kinds `create_model` can return. -/
inductive Model where
  | stt (m : ElevenLabsSTTModel)
  | tts (m : ElevenLabsTTSModel)
deriving DecidableEq, Repr

/-- `ElevenLabsPlugin.create_model` (lines 341-377): dispatch on the provider
id; for each recognized id require a truthy API key (else raise ValueError
naming the provider), read the remaining settings with their defaults
(coercing the three TTS shaping parameters through `float`), and construct
the adapter; any other id raises ValueError naming the offending id. -/
def create_model (provider_id : String) (settings : Settings) :
    Except String Model :=
  if provider_id = "elevenlabs-stt" then
    let api_key := getSettingD settings "elevenlabs_api_key" (.str "")
    if !api_key.truthy then
      .error "ElevenLabs STT: No API key provided"
    else
      let model_id := getSettingD settings "elevenlabs_stt_model_id" (.str "scribe_v1")
      let lang := getSettingD settings "elevenlabs_stt_language" (.str "")
      let language_code := if lang.truthy then some lang else none
      .ok (.stt { api_key := api_key
                  model_id := model_id
                  language_code := language_code
                  client := none })
  else if provider_id = "elevenlabs-tts" then
    let api_key := getSettingD settings "elevenlabs_api_key" (.str "")
    if !api_key.truthy then
      .error "ElevenLabs TTS: No API key provided"
    else
      let model_id := getSettingD settings "elevenlabs_model_id" (.str "eleven_flash_v2_5")
      match pyFloat (getSettingD settings "elevenlabs_stability" (.num 0.5)) with
      | .error e => .error e
      | .ok stability =>
        match pyFloat (getSettingD settings "elevenlabs_similarity_boost" (.num 0.75)) with
        | .error e => .error e
        | .ok similarity_boost =>
          match pyFloat (getSettingD settings "elevenlabs_style" (.num 0.0)) with
          | .error e => .error e
          | .ok style =>
            .ok (.tts { api_key := api_key
                        model_id := model_id
                        stability := stability
                        similarity_boost := similarity_boost
                        style := style
                        use_speaker_boost := true
                        client := none })
  else
    .error ("Unknown ElevenLabs provider: " ++ provider_id)

/-- Spec-side description of the synthesis output ("filter to non-empty byte
chunks"), to be compared with the generator loop embedded from the source. -/
def specNonEmptyByteChunks (stream : List StreamItem) : List (List UInt8) :=
  stream.filterMap (fun c =>
    match c with
    | .bytes b => if b = [] then none else some b
    | _ => none)

/-- Items of the vendor stream that are byte chunks. -/
def isBytesItem : StreamItem → Bool
  | .bytes _ => true
  | _ => false

theorem getSettingD_of_get (s : Settings) (k : String) (d v : SettingValue)
    (h : getSetting s k = some v) : getSettingD s k d = v := by
  simp [getSettingD, h]

/-- C1: with the API key absent or bound to the empty string, `create_model`
for either recognized provider id fails at construction time with the
configuration error naming the provider; no adapter (hence no vendor client)
is constructed and no network interaction can occur. -/
theorem create_model_missing_api_key (s : Settings)
    (h : getSetting s "elevenlabs_api_key" = none ∨
         getSetting s "elevenlabs_api_key" = some (.str "")) :
    create_model "elevenlabs-stt" s = .error "ElevenLabs STT: No API key provided" ∧
    create_model "elevenlabs-tts" s = .error "ElevenLabs TTS: No API key provided" := by
  have hk : getSettingD s "elevenlabs_api_key" (.str "") = .str "" := by
    rcases h with h | h <;> simp [getSettingD, h]
  constructor <;> simp [create_model, hk, SettingValue.truthy]

/-- Evaluation of `create_model_missing_api_key` on the empty settings
mapping. -/
theorem create_model_missing_api_key_checked :
    create_model "elevenlabs-stt" [] = .error "ElevenLabs STT: No API key provided" ∧
    create_model "elevenlabs-tts" [] = .error "ElevenLabs TTS: No API key provided" :=
  create_model_missing_api_key [] (Or.inl rfl)

/-- C2 (counterexample): `create_model` does not read the voice-id setting
and the constructed adapter does not depend on it — two settings mappings
that differ only in `elevenlabs_voice_id` yield identical adapters, and the
adapter record carries no voice id at all. -/
theorem create_model_tts_ignores_voice_id :
    create_model "elevenlabs-tts"
        [("elevenlabs_api_key", .str "k"),
         ("elevenlabs_voice_id", .str "JBFqnCBsd6RMkjVDRZzb")] =
      create_model "elevenlabs-tts"
        [("elevenlabs_api_key", .str "k"),
         ("elevenlabs_voice_id", .str "completely-different-voice")] ∧
    create_model "elevenlabs-tts"
        [("elevenlabs_api_key", .str "k"),
         ("elevenlabs_voice_id", .str "JBFqnCBsd6RMkjVDRZzb")] =
      .ok (.tts { api_key := .str "k"
                  model_id := .str "eleven_flash_v2_5"
                  stability := 0.5
                  similarity_boost := 0.75
                  style := 0.0
                  use_speaker_boost := true
                  client := none }) :=
  ⟨rfl, rfl⟩

/-- C2 (amended): with a truthy API key, `create_model` for the TTS provider
reads the model id (default `eleven_flash_v2_5`) and the three shaping
parameters stability, similarity boost and style (defaults 0.5, 0.75, 0.0),
each coerced through `float`, and constructs the adapter from them; the
voice id is not read here (it is supplied per `synthesize` call). -/
theorem create_model_tts_reads_settings (s : Settings) (key : SettingValue)
    (hk : getSetting s "elevenlabs_api_key" = some key) (ht : key.truthy = true)
    (qs qb qy : Rat)
    (hs : pyFloat (getSettingD s "elevenlabs_stability" (.num 0.5)) = .ok qs)
    (hb : pyFloat (getSettingD s "elevenlabs_similarity_boost" (.num 0.75)) = .ok qb)
    (hy : pyFloat (getSettingD s "elevenlabs_style" (.num 0.0)) = .ok qy) :
    create_model "elevenlabs-tts" s =
      .ok (.tts { api_key := key
                  model_id := getSettingD s "elevenlabs_model_id" (.str "eleven_flash_v2_5")
                  stability := qs
                  similarity_boost := qb
                  style := qy
                  use_speaker_boost := true
                  client := none }) := by
  have hkd := getSettingD_of_get s "elevenlabs_api_key" (.str "") key hk
  simp [create_model, hkd, ht, hs, hb, hy]

/-- Evaluation of `create_model_tts_reads_settings` on a concrete settings
mapping overriding the stability. -/
theorem create_model_tts_reads_settings_checked :
    create_model "elevenlabs-tts"
        [("elevenlabs_api_key", .str "k"), ("elevenlabs_stability", .num 0.3)] =
      .ok (.tts { api_key := .str "k"
                  model_id := .str "eleven_flash_v2_5"
                  stability := 0.3
                  similarity_boost := 0.75
                  style := 0.0
                  use_speaker_boost := true
                  client := none }) :=
  create_model_tts_reads_settings
    [("elevenlabs_api_key", .str "k"), ("elevenlabs_stability", .num 0.3)]
    (.str "k") rfl rfl 0.3 0.75 0.0 rfl rfl rfl

/-- C7: for any provider id other than the two recognized ones,
`create_model` fails with the error naming the offending id, whatever the
settings; no adapter is constructed. -/
theorem create_model_unknown_provider (p : String) (s : Settings)
    (h1 : p ≠ "elevenlabs-stt") (h2 : p ≠ "elevenlabs-tts") :
    create_model p s = .error ("Unknown ElevenLabs provider: " ++ p) := by
  simp [create_model, h1, h2]

/-- Evaluation of `create_model_unknown_provider` at a concrete unknown id. -/
theorem create_model_unknown_provider_checked :
    create_model "whisper" [] = .error ("Unknown ElevenLabs provider: " ++ "whisper") :=
  create_model_unknown_provider "whisper" [] (by decide) (by decide)

theorem yieldLoop_eq_filterMap (stream : List StreamItem) :
    yieldLoop stream = specNonEmptyByteChunks stream := by
  induction stream with
  | nil => rfl
  | cons c rest ih =>
    cases c with
    | bytes b =>
      by_cases hb : b = [] <;>
        simp [yieldLoop, specNonEmptyByteChunks, List.filterMap_cons, hb] at ih ⊢ <;>
        exact ih
    | str s => simpa [yieldLoop, specNonEmptyByteChunks, List.filterMap_cons] using ih
    | pyNone => simpa [yieldLoop, specNonEmptyByteChunks, List.filterMap_cons] using ih

/-- C3: on a vendor stream delivering the given chunks and closing normally,
`synthesize` yields exactly the non-empty byte chunks of the stream, in
order; in particular the stream abc / empty / def yields abc, def. -/
theorem synthesize_filters_empty_chunks (m : ElevenLabsTTSModel)
    (text voice : String) (stream : List StreamItem) :
    ((m.synthesize text voice (fun _ => (stream, none))).1).1 =
      specNonEmptyByteChunks stream ∧
    ((m.synthesize text voice
        (fun _ => ([.bytes [97, 98, 99], .bytes [], .bytes [100, 101, 102]], none))).1).1 =
      [[97, 98, 99], [100, 101, 102]] := by
  constructor
  · simpa [ElevenLabsTTSModel.synthesize] using yieldLoop_eq_filterMap stream
  · rfl

/-- C4: `transcribe` returns the vendor's text with surrounding whitespace
stripped, and the empty string (not an error) when the vendor returns None
or an empty text; in particular "  hello world  " becomes "hello world". -/
theorem transcribe_trims_text (m : ElevenLabsSTTModel) (s : String) :
    (m.transcribe (fun _ => .ok { text := some s })).1 = .ok (pyStrip s) ∧
    (m.transcribe (fun _ => .ok { text := none })).1 = .ok "" ∧
    (m.transcribe (fun _ => .ok { text := some "" })).1 = .ok "" ∧
    (m.transcribe (fun _ => .ok { text := some "  hello world  " })).1 =
      .ok "hello world" := by
  refine ⟨?_, rfl, rfl, ?_⟩
  · by_cases h : s = ""
    · subst h; rfl
    · simp [ElevenLabsSTTModel.transcribe, h]
  · rfl

/-- C6: a vendor failure during transcription is logged with context and
re-raised unchanged, a vendor success is never turned into an error; a
vendor failure during synthesis is logged with context and re-raised after
the chunks already delivered were yielded, and a normally closing stream
raises nothing and logs nothing.  No retry and no recovery happen: the
single vendor outcome fully determines the call's result. -/
theorem vendor_failures_logged_and_reraised
    (ms : ElevenLabsSTTModel) (mt : ElevenLabsTTSModel)
    (e : String) (r : STTResult) (text voice : String) (stream : List StreamItem) :
    (ms.transcribe (fun _ => .error e)).1 = .error e ∧
    (ms.transcribe (fun _ => .error e)).2.1 =
      ["ElevenLabs STT transcription failed: " ++ e] ∧
    (∃ t, (ms.transcribe (fun _ => .ok r)).1 = .ok t) ∧
    (mt.synthesize text voice (fun _ => (stream, some e))).1 =
      (yieldLoop stream, some e, ["ElevenLabs TTS synthesis failed: " ++ e]) ∧
    (mt.synthesize text voice (fun _ => (stream, none))).1 =
      (yieldLoop stream, none, []) :=
  ⟨rfl, rfl, ⟨_, rfl⟩, rfl, rfl⟩

theorem yieldLoop_all_nonempty (stream : List StreamItem) :
    (yieldLoop stream).all (fun b => !b.isEmpty) = true := by
  induction stream with
  | nil => rfl
  | cons c rest ih =>
    cases c with
    | bytes b =>
      by_cases hb : b = [] <;> simp [yieldLoop, hb, ih]
    | str s => simpa [yieldLoop] using ih
    | pyNone => simpa [yieldLoop] using ih

theorem yieldLoop_skips_non_bytes (stream : List StreamItem) :
    yieldLoop (stream.filter isBytesItem) = yieldLoop stream := by
  induction stream with
  | nil => rfl
  | cons c rest ih =>
    cases c with
    | bytes b => simp [yieldLoop, isBytesItem, List.filter_cons, ih]
    | str s => simpa [yieldLoop, isBytesItem, List.filter_cons] using ih
    | pyNone => simpa [yieldLoop, isBytesItem, List.filter_cons] using ih

/-- C10: every chunk `synthesize` yields is a non-empty byte string; items of
the vendor stream that are not byte strings are skipped silently (removing
them from the stream changes nothing), with no error and no log — in
particular the stream None / "x" / bytes [1] yields exactly [1]. -/
theorem synthesize_yields_only_nonempty_bytes (m : ElevenLabsTTSModel)
    (text voice : String) (stream : List StreamItem) :
    (((m.synthesize text voice (fun _ => (stream, none))).1).1.all
        (fun b => !b.isEmpty)) = true ∧
    ((m.synthesize text voice (fun _ => (stream.filter isBytesItem, none))).1).1 =
      ((m.synthesize text voice (fun _ => (stream, none))).1).1 ∧
    (m.synthesize text voice (fun _ => ([.pyNone, .str "x", .bytes [1]], none))).1 =
      ([[1]], none, []) := by
  refine ⟨?_, ?_, rfl⟩
  · simpa [ElevenLabsTTSModel.synthesize] using yieldLoop_all_nonempty stream
  · simpa [ElevenLabsTTSModel.synthesize] using yieldLoop_skips_non_bytes stream

/-- Number of client constructions over a sequence of calls that each need
the client on an STT adapter instance: a construction happens exactly when
`_get_client` runs while `self._client` is still None. -/
def sttClientCreations : Nat → ElevenLabsSTTModel → ElevenLabsSTTModel × Nat
  | 0, m => (m, 0)
  | n + 1, m =>
    let created := if m.client = none then 1 else 0
    let rest := sttClientCreations n (m.getClient).2
    (rest.1, created + rest.2)

/-- Number of client constructions over a sequence of calls on a TTS adapter
instance. -/
def ttsClientCreations : Nat → ElevenLabsTTSModel → ElevenLabsTTSModel × Nat
  | 0, m => (m, 0)
  | n + 1, m =>
    let created := if m.client = none then 1 else 0
    let rest := ttsClientCreations n (m.getClient).2
    (rest.1, created + rest.2)

theorem sttClientCreations_cached (n : Nat) (m : ElevenLabsSTTModel)
    (c : ElevenLabsClient) (h : m.client = some c) :
    sttClientCreations n m = (m, 0) := by
  induction n with
  | zero => rfl
  | succ k ih => simp [sttClientCreations, ElevenLabsSTTModel.getClient, h, ih]

theorem ttsClientCreations_cached (n : Nat) (m : ElevenLabsTTSModel)
    (c : ElevenLabsClient) (h : m.client = some c) :
    ttsClientCreations n m = (m, 0) := by
  induction n with
  | zero => rfl
  | succ k ih => simp [ttsClientCreations, ElevenLabsTTSModel.getClient, h, ih]

/-- C5: the vendor client handle is a lazy singleton per adapter instance.
For both adapter kinds: any sequence of calls needing the client constructs
it at most once; a fresh instance's first `_get_client` builds the handle
from the stored credential and caches it; and once a call has run, a further
`_get_client` returns the very same handle with the state unchanged. -/
theorem client_lazy_singleton (n : Nat)
    (ms : ElevenLabsSTTModel) (mt : ElevenLabsTTSModel)
    (key mid : SettingValue) (lc : Option SettingValue)
    (q1 q2 q3 : Rat) (sb : Bool) :
    (sttClientCreations n ms).2 ≤ 1 ∧
    (ttsClientCreations n mt).2 ≤ 1 ∧
    (ElevenLabsSTTModel.mk key mid lc none).getClient =
      (⟨key⟩, ElevenLabsSTTModel.mk key mid lc (some ⟨key⟩)) ∧
    (ElevenLabsTTSModel.mk key mid q1 q2 q3 sb none).getClient =
      (⟨key⟩, ElevenLabsTTSModel.mk key mid q1 q2 q3 sb (some ⟨key⟩)) ∧
    ((ms.getClient).2).getClient = ((ms.getClient).1, (ms.getClient).2) ∧
    ((mt.getClient).2).getClient = ((mt.getClient).1, (mt.getClient).2) := by
  refine ⟨?_, ?_, rfl, rfl, ?_, ?_⟩
  · cases n with
    | zero => simp [sttClientCreations]
    | succ k =>
      cases hc : ms.client with
      | some c =>
        simp [sttClientCreations, hc, sttClientCreations_cached _ _ _ hc,
          ElevenLabsSTTModel.getClient]
      | none =>
        have h2 : ((ms.getClient).2).client = some ⟨ms.api_key⟩ := by
          simp [ElevenLabsSTTModel.getClient, hc]
        simp [sttClientCreations, hc, sttClientCreations_cached k _ _ h2]
  · cases n with
    | zero => simp [ttsClientCreations]
    | succ k =>
      cases hc : mt.client with
      | some c =>
        simp [ttsClientCreations, hc, ttsClientCreations_cached _ _ _ hc,
          ElevenLabsTTSModel.getClient]
      | none =>
        have h2 : ((mt.getClient).2).client = some ⟨mt.api_key⟩ := by
          simp [ElevenLabsTTSModel.getClient, hc]
        simp [ttsClientCreations, hc, ttsClientCreations_cached k _ _ h2]
  · cases hc : ms.client <;> simp [ElevenLabsSTTModel.getClient, hc]
  · cases hc : mt.client <;> simp [ElevenLabsTTSModel.getClient, hc]

/-- C8: with a truthy API key, `create_model` for the STT provider reads the
model id (default `scribe_v1`) and the language setting, normalizing a
non-truthy value (in particular the empty string) to None; the transcription
request then always carries the model identifier and carries the language
code exactly when one is present. -/
theorem create_model_stt_reads_settings (s : Settings) (key : SettingValue)
    (hk : getSetting s "elevenlabs_api_key" = some key) (ht : key.truthy = true) :
    ∃ m : ElevenLabsSTTModel,
      create_model "elevenlabs-stt" s = .ok (.stt m) ∧
      m.model_id = getSettingD s "elevenlabs_stt_model_id" (.str "scribe_v1") ∧
      m.language_code =
        (if (getSettingD s "elevenlabs_stt_language" (.str "")).truthy then
          some (getSettingD s "elevenlabs_stt_language" (.str "")) else none) ∧
      m.transcribeRequest.model_id = m.model_id ∧
      m.transcribeRequest.language_code = m.language_code := by
  have hkd := getSettingD_of_get s "elevenlabs_api_key" (.str "") key hk
  refine ⟨{ api_key := key
            model_id := getSettingD s "elevenlabs_stt_model_id" (.str "scribe_v1")
            language_code :=
              if (getSettingD s "elevenlabs_stt_language" (.str "")).truthy then
                some (getSettingD s "elevenlabs_stt_language" (.str "")) else none
            client := none }, ?_, rfl, rfl, rfl, ?_⟩
  · simp [create_model, hkd, ht]
  · by_cases hl : (getSettingD s "elevenlabs_stt_language" (.str "")).truthy <;>
      simp [ElevenLabsSTTModel.transcribeRequest, hl]

/-- Evaluation of `create_model_stt_reads_settings` on a concrete settings
mapping with a language code. -/
theorem create_model_stt_reads_settings_checked :
    ∃ m : ElevenLabsSTTModel,
      create_model "elevenlabs-stt"
          [("elevenlabs_api_key", .str "k"), ("elevenlabs_stt_language", .str "en")] =
        .ok (.stt m) ∧
      m.model_id = .str "scribe_v1" ∧
      m.language_code = some (.str "en") ∧
      m.transcribeRequest.model_id = m.model_id ∧
      m.transcribeRequest.language_code = m.language_code :=
  create_model_stt_reads_settings
    [("elevenlabs_api_key", .str "k"), ("elevenlabs_stt_language", .str "en")]
    (.str "k") rfl rfl

/-- C9: every TTS adapter built through `create_model` has its speaker-boost
flag set to True — no settings key can change it — and consequently every
synthesis request it sends carries `use_speaker_boost = true` in the
voice-settings object. -/
theorem tts_speaker_boost_always_true (s : Settings) (m : ElevenLabsTTSModel)
    (h : create_model "elevenlabs-tts" s = .ok (.tts m)) (text voice : String) :
    m.use_speaker_boost = true ∧
    (m.synthRequest text voice).voice_settings.use_speaker_boost = true := by
  have hm : m.use_speaker_boost = true := by
    by_cases hk : (getSettingD s "elevenlabs_api_key" (.str "")).truthy
    · rcases h1 : pyFloat (getSettingD s "elevenlabs_stability" (.num 0.5)) with e1 | q1
      · rw [show create_model "elevenlabs-tts" s = .error e1 by
          simp [create_model, hk, h1]] at h
        exact absurd h (by simp)
      · rcases h2 : pyFloat (getSettingD s "elevenlabs_similarity_boost" (.num 0.75)) with e2 | q2
        · rw [show create_model "elevenlabs-tts" s = .error e2 by
            simp [create_model, hk, h1, h2]] at h
          exact absurd h (by simp)
        · rcases h3 : pyFloat (getSettingD s "elevenlabs_style" (.num 0.0)) with e3 | q3
          · rw [show create_model "elevenlabs-tts" s = .error e3 by
              simp [create_model, hk, h1, h2, h3]] at h
            exact absurd h (by simp)
          · rw [show create_model "elevenlabs-tts" s =
                .ok (.tts { api_key := getSettingD s "elevenlabs_api_key" (.str "")
                            model_id := getSettingD s "elevenlabs_model_id"
                              (.str "eleven_flash_v2_5")
                            stability := q1
                            similarity_boost := q2
                            style := q3
                            use_speaker_boost := true
                            client := none }) by
              simp [create_model, hk, h1, h2, h3]] at h
            simp only [Except.ok.injEq, Model.tts.injEq] at h
            rw [← h]
    · rw [show create_model "elevenlabs-tts" s =
          .error "ElevenLabs TTS: No API key provided" by simp [create_model, hk]] at h
      exact absurd h (by simp)
  constructor
  · exact hm
  · simpa [ElevenLabsTTSModel.synthRequest] using hm

/-- Evaluation of `tts_speaker_boost_always_true` on a concrete settings
mapping. -/
theorem tts_speaker_boost_always_true_checked :
    (ElevenLabsTTSModel.mk (.str "k") (.str "eleven_flash_v2_5")
        0.5 0.75 0.0 true none).use_speaker_boost = true ∧
    ((ElevenLabsTTSModel.mk (.str "k") (.str "eleven_flash_v2_5")
        0.5 0.75 0.0 true none).synthRequest "hi" "v").voice_settings.use_speaker_boost
      = true :=
  tts_speaker_boost_always_true [("elevenlabs_api_key", .str "k")] _ rfl "hi" "v"
